import Mathlib

/-!
Shallow embedding of the California Housing map visualisation script
(`calfornia_map.py`): a Streamlit app that samples the housing dataset,
normalises the `MedHouseVal` column against the full-dataset min/max, and
renders either viridis-coloured circle markers or a weighted HeatMap layer
on a folium map centred at the mean latitude/longitude.

Records carry latitude, longitude and the scalar `MedHouseVal`; rational
numbers stand in for Python floats.
-/

namespace CalMap

/-- One row of the dataframe restricted to the columns the map uses:
`Latitude`, `Longitude`, `MedHouseVal`. -/
structure Record where
  latitude : ℚ
  longitude : ℚ
  value : ℚ
deriving DecidableEq, Repr

/-- The dataframe `df`: an ordered list of records. -/
abbrev Dataset := List Record

/-- Left fold of `min` over a list, seeded with an accumulator:
the reduction performed by `df["MedHouseVal"].min()`. -/
def foldMin (acc : ℚ) : List ℚ → ℚ
  | [] => acc
  | x :: xs => foldMin (min acc x) xs

/-- Left fold of `max` over a list, seeded with an accumulator:
the reduction performed by `df["MedHouseVal"].max()`. -/
def foldMax (acc : ℚ) : List ℚ → ℚ
  | [] => acc
  | x :: xs => foldMax (max acc x) xs

/-- `vmin = float(df["MedHouseVal"].min())` (line 100); `0` on the empty
frame, which the app never produces. -/
def vmin : Dataset → ℚ
  | [] => 0
  | r :: rs => foldMin r.value (rs.map (·.value))

/-- `vmax = float(df["MedHouseVal"].max())` (line 100). -/
def vmax : Dataset → ℚ
  | [] => 0
  | r :: rs => foldMax r.value (rs.map (·.value))

/-- `center_lat = float(df["Latitude"].mean())` (line 95). -/
def center_lat (df : Dataset) : ℚ := (df.map (·.latitude)).sum / df.length

/-- `center_lon = float(df["Longitude"].mean())` (line 96). -/
def center_lon (df : Dataset) : ℚ := (df.map (·.longitude)).sum / df.length

/-- `denom = (vmax - vmin) if (vmax - vmin) > 0 else 1.0` (line 123). -/
def denom (df : Dataset) : ℚ := if vmax df - vmin df > 0 then vmax df - vmin df else 1

/-- The normalisation `(value - vmin) / denom` applied to each sampled row
(line 125); the spec's `normalize(value, range)`. -/
def normalize (df : Dataset) (v : ℚ) : ℚ := (v - vmin df) / denom df

/-- `heat_data` (lines 124-127): one `[lat, lon, weight]` triple per row of
`df_show`, the weight normalised against the *full* dataset's `vmin`/`vmax`. -/
def heat_data (df df_show : Dataset) : List (ℚ × ℚ × ℚ) :=
  df_show.map fun r => (r.latitude, r.longitude, (r.value - vmin df) / denom df)

/-- Modelled from the spec: `df.sample(max_show, random_state=...)` (line 92)
delegates to pandas' seeded pseudo-random generator, whose code is not part
of this repository. The spec only requires "a deterministic pseudo-random
generator" seeded per call; we model it as a 64-bit linear congruential step. -/
def lcgNext (s : Nat) : Nat :=
  (6364136223846793005 * s + 1442695040888963407) % 18446744073709551616

/-- Modelled from the spec: the sampler draws "without replacement,
deterministic given a seed value". We realise it as a seeded Fisher-Yates
shuffle: repeatedly pick the `s % length`-th remaining element, advancing
the generator state with `lcgNext`. -/
def fisherYates {α : Type} : List α → Nat → List α
  | [], _ => []
  | x :: xs, s =>
    have hi : s % (x :: xs).length < (x :: xs).length :=
      Nat.mod_lt _ (Nat.succ_pos _)
    (x :: xs).get ⟨s % (x :: xs).length, hi⟩ ::
      fisherYates ((x :: xs).eraseIdx (s % (x :: xs).length)) (lcgNext s)
termination_by l _ => l.length
decreasing_by
  simp only [List.length_eraseIdx, hi, if_pos]
  exact Nat.sub_lt (Nat.succ_pos _) Nat.one_pos

/-- The spec's `OutOfRangeError`: requested sample size exceeds dataset size.
(The concrete script surfaces it as the `ValueError` pandas raises when
`max_show > len(df)` with `replace=False`.) -/
inductive SamplerError where
  | outOfRange
deriving DecidableEq, Repr

/-- The permutation of row positions drawn for a given seed: pandas samples
rows by position, so distinct positions may carry equal-valued records. -/
def sampleIdx (n seed : Nat) : List (Fin n) := fisherYates (List.finRange n) seed

/-- The rows at the first `k` drawn positions, in draw order. -/
def sampleRows (df : Dataset) (k seed : Nat) : Dataset :=
  ((sampleIdx df.length seed).take k).map df.get

/-- `df_show = df.sample(max_show, random_state=int(random_state))` (line 92):
take the first `max_show` drawn positions and read off their rows; fail with
`OutOfRangeError` when `max_show` exceeds the number of rows. -/
def sample (df : Dataset) (k seed : Nat) : Except SamplerError Dataset :=
  if k ≤ df.length then .ok (sampleRows df k seed) else .error .outOfRange

/-- Modelled from the spec / matplotlib: `cm.get_cmap("viridis")` (line 105) is
an external 256-entry lookup table; `cmap(x)` truncates `x * 256` to an index,
sends `x = 1` to index `255`, and maps out-of-range inputs to the default
"under"/"over" colours, which coincide with the two endpoint entries. We model
the colour by its lookup-table index (`viridis` entries are pairwise distinct). -/
def viridisIdx (x : ℚ) : Nat :=
  if x < 0 then 0
  else if 1 ≤ x then 255
  else (⌊x * 256⌋).toNat

/-- Modelled from the spec / matplotlib: `colors.Normalize(vmin, vmax)` (line
104) is external; it rescales by `(v - vmin) / (vmax - vmin)` without clipping
and returns `0` for every input when `vmax == vmin`. -/
def mplNorm (df : Dataset) (v : ℚ) : ℚ :=
  if vmin df < vmax df then (v - vmin df) / (vmax df - vmin df) else 0

/-- One `folium.CircleMarker` call (lines 109-117): position, fixed radius 3,
colour from the colormap (used for both stroke and fill), fill opacity 0.85,
and the popup label carrying the raw value. -/
structure PointPrimitive where
  location : ℚ × ℚ
  radius : Nat
  colorIdx : Nat
  fill : Bool
  fill_opacity : ℚ
  popupValue : ℚ
deriving DecidableEq, Repr

/-- The marker built for row `r` (lines 108-117): colour index
`cmap(norm(r.MedHouseVal))` with `norm` ranged over the *full* dataset. -/
def markerPrim (df : Dataset) (r : Record) : PointPrimitive :=
  { location := (r.latitude, r.longitude)
    radius := 3
    colorIdx := viridisIdx (mplNorm df r.value)
    fill := true
    fill_opacity := 17 / 20
    popupValue := r.value }

/-- The marker-mode layer: the loop over `df_show.iterrows()` (line 107) emits
one `CircleMarker` per sampled row, in iteration order. -/
def markerLayer (df df_show : Dataset) : List PointPrimitive :=
  df_show.map (markerPrim df)

/-- The spec's `InvalidParameterError`: a non-positive heatmap rendering
parameter. -/
inductive RenderError where
  | invalidParameter
deriving DecidableEq, Repr

/-- The `folium.plugins.HeatMap` layer as constructed on lines 128-135:
the weighted points plus the pass-through engine parameters. -/
structure HeatLayer where
  data : List (ℚ × ℚ × ℚ)
  radius : Int
  blur : Int
  max_zoom : Int
  min_opacity : ℚ
  max_val : ℚ
deriving DecidableEq, Repr

/-- Modelled from the spec: the `HeatMap` rendering engine itself is external
to the repository. Per §4.5 it requires `radius`, `blur`, `max_zoom` positive
(failing with `InvalidParameterError` otherwise) and passes them through
unchanged; `min_opacity=0.2` and `max_val=1.0` are fixed at the call site. -/
def heatMapRender (data : List (ℚ × ℚ × ℚ)) (radius blur max_zoom : Int) :
    Except RenderError HeatLayer :=
  if 0 < radius ∧ 0 < blur ∧ 0 < max_zoom then
    .ok { data := data, radius := radius, blur := blur, max_zoom := max_zoom
          min_opacity := 1 / 5, max_val := 1 }
  else
    .error .invalidParameter

/-- The sidebar radio choice `mode` (line 65). -/
inductive Mode where
  | circleMarker
  | heatMap
deriving DecidableEq, Repr

/-- The single layer attached to the map: markers or heat, never both. -/
inductive Layer where
  | markers : List PointPrimitive → Layer
  | heat : HeatLayer → Layer
deriving DecidableEq, Repr

/-- The composed `folium.Map` (line 97) with its attached layer:
`location=[center_lat, center_lon]`, `zoom_start=6`. -/
structure MapArtifact where
  location : ℚ × ℚ
  zoom_start : Nat
  layer : Layer
deriving DecidableEq, Repr

/-- Errors the render pipeline can surface. -/
inductive AppError where
  | outOfRange
  | invalidParameter
deriving DecidableEq, Repr

/-- The whole render pipeline of section 4 of the script: sample `max_show`
rows with the given seed, build the mode's layer (normalising against the
full dataset's value range), and compose the map centred at the dataset's
mean position. -/
def runApp (df : Dataset) (max_show seed : Nat) (mode : Mode)
    (radius blur max_z : Int) : Except AppError MapArtifact :=
  match sample df max_show seed with
  | .error _ => .error .outOfRange
  | .ok df_show =>
    match mode with
    | .circleMarker =>
        .ok { location := (center_lat df, center_lon df), zoom_start := 6
              layer := .markers (markerLayer df df_show) }
    | .heatMap =>
        match heatMapRender (heat_data df df_show) radius blur max_z with
        | .error _ => .error .invalidParameter
        | .ok hl =>
            .ok { location := (center_lat df, center_lon df), zoom_start := 6
                  layer := .heat hl }

/-- The sample-size slider (line 62): `st.sidebar.slider(min_value=1000,
max_value=len(df), value=5000, step=1000)`. A value is selectable through
the control surface iff it is `1000 + 1000*i` for some `i` and at most
`len(df)`. -/
def selectableSampleSize (n k : Nat) : Prop :=
  (∃ i, k = 1000 + 1000 * i) ∧ k ≤ n

/-- The three-record dataset of the spec's scenarios A and B:
`[(10,20,1.0), (11,21,2.0), (12,22,3.0)]`. -/
def dataset3 : Dataset :=
  [⟨10, 20, 1⟩, ⟨11, 21, 2⟩, ⟨12, 22, 3⟩]

/-- A two-record dataset whose values are all `5.0` (spec scenario D). -/
def dataset5 : Dataset := [⟨1, 2, 5⟩, ⟨3, 4, 5⟩]

theorem foldMin_le_acc (l : List ℚ) : ∀ acc, foldMin acc l ≤ acc := by
  induction l with
  | nil => intro acc; exact le_refl _
  | cons x xs ih =>
      intro acc
      exact le_trans (ih (min acc x)) (min_le_left _ _)

theorem foldMin_le_mem (l : List ℚ) : ∀ acc x, x ∈ l → foldMin acc l ≤ x := by
  induction l with
  | nil => intro acc x hx; cases hx
  | cons y ys ih =>
      intro acc x hx
      rcases List.mem_cons.mp hx with h | h
      · subst h
        exact le_trans (foldMin_le_acc ys (min acc x)) (min_le_right _ _)
      · exact ih (min acc y) x h

theorem acc_le_foldMax (l : List ℚ) : ∀ acc, acc ≤ foldMax acc l := by
  induction l with
  | nil => intro acc; exact le_refl _
  | cons x xs ih =>
      intro acc
      exact le_trans (le_max_left _ _) (ih (max acc x))

theorem mem_le_foldMax (l : List ℚ) : ∀ acc x, x ∈ l → x ≤ foldMax acc l := by
  induction l with
  | nil => intro acc x hx; cases hx
  | cons y ys ih =>
      intro acc x hx
      rcases List.mem_cons.mp hx with h | h
      · subst h
        exact le_trans (le_max_right acc x) (acc_le_foldMax ys (max acc x))
      · exact ih (max acc y) x h

theorem vmin_le_of_mem {df : Dataset} {r : Record} (h : r ∈ df) :
    vmin df ≤ r.value := by
  cases df with
  | nil => cases h
  | cons a rs =>
      rcases List.mem_cons.mp h with h' | h'
      · subst h'
        exact foldMin_le_acc _ _
      · exact foldMin_le_mem _ _ _ (List.mem_map_of_mem (·.value) h')

theorem le_vmax_of_mem {df : Dataset} {r : Record} (h : r ∈ df) :
    r.value ≤ vmax df := by
  cases df with
  | nil => cases h
  | cons a rs =>
      rcases List.mem_cons.mp h with h' | h'
      · subst h'
        exact acc_le_foldMax _ _
      · exact mem_le_foldMax _ _ _ (List.mem_map_of_mem (·.value) h')

theorem denom_pos (df : Dataset) : 0 < denom df := by
  unfold denom
  split
  · assumption
  · exact one_pos

theorem cons_get_eraseIdx_perm {α : Type} :
    ∀ (l : List α) (i : Nat) (h : i < l.length),
      List.Perm (l.get ⟨i, h⟩ :: l.eraseIdx i) l := by
  intro l
  induction l with
  | nil => intro i h; cases h
  | cons a as ih =>
      intro i h
      cases i with
      | zero => simp
      | succ j =>
          have hj : j < as.length := Nat.lt_of_succ_lt_succ h
          have step : List.Perm (as.get ⟨j, hj⟩ :: a :: as.eraseIdx j)
              (a :: as.get ⟨j, hj⟩ :: as.eraseIdx j) := List.Perm.swap _ _ _
          exact List.Perm.trans step (List.Perm.cons a (ih j hj))

theorem fisherYates_perm {α : Type} :
    ∀ (n : Nat) (l : List α), l.length = n → ∀ s, List.Perm (fisherYates l s) l := by
  intro n
  induction n with
  | zero =>
      intro l hl s
      cases l with
      | nil => simp [fisherYates]
      | cons x xs => cases hl
  | succ m ih =>
      intro l hl s
      cases l with
      | nil => cases hl
      | cons x xs =>
          have hi : s % (x :: xs).length < (x :: xs).length :=
            Nat.mod_lt _ (Nat.succ_pos _)
          have herase : ((x :: xs).eraseIdx (s % (x :: xs).length)).length = m := by
            simp only [List.length_eraseIdx, hi, if_pos]
            omega
          have htail := ih _ herase (lcgNext s)
          rw [fisherYates]
          exact List.Perm.trans (List.Perm.cons _ htail) (cons_get_eraseIdx_perm _ _ hi)

theorem sampleIdx_perm (n s : Nat) : List.Perm (sampleIdx n s) (List.finRange n) :=
  fisherYates_perm n (List.finRange n) (List.length_finRange n) s

theorem sampleIdx_length (n s : Nat) : (sampleIdx n s).length = n := by
  have := (sampleIdx_perm n s).length_eq
  simpa using this

theorem sampleIdx_nodup (n s : Nat) : (sampleIdx n s).Nodup :=
  ((sampleIdx_perm n s).nodup_iff).mpr (List.nodup_finRange n)

/-- C3: for every dataset whose value range satisfies `max > min`,
`normalize` sends the minimum to exactly `0`, the maximum to exactly `1`,
and is monotone non-decreasing in its value argument. -/
theorem c3_normalize_bounds_mono (df : Dataset) (h : vmin df < vmax df) :
    normalize df (vmin df) = 0 ∧ normalize df (vmax df) = 1 ∧
      ∀ u v : ℚ, u ≤ v → normalize df u ≤ normalize df v := by
  have hd : denom df = vmax df - vmin df := by
    unfold denom
    rw [if_pos]
    linarith
  refine ⟨?_, ?_, ?_⟩
  · simp [normalize]
  · rw [normalize, hd]
    exact div_self (by linarith)
  · intro u v huv
    unfold normalize
    have hpos := denom_pos df
    gcongr

/-- Witness for C3 on the concrete three-record scenario dataset. -/
theorem c3_normalize_bounds_mono_witness :
    vmin dataset3 < vmax dataset3 ∧
      normalize dataset3 (vmin dataset3) = 0 ∧
      normalize dataset3 (vmax dataset3) = 1 ∧
      normalize dataset3 2 ≤ normalize dataset3 (5 / 2) := by
  have h : vmin dataset3 < vmax dataset3 := by
    norm_num [dataset3, vmin, vmax, foldMin, foldMax]
  have main := c3_normalize_bounds_mono dataset3 h
  exact ⟨h, main.1, main.2.1, main.2.2 2 (5 / 2) (by norm_num)⟩

/-- C4: for every dataset with `max == min`, the denominator is replaced by
`1` (no division by zero) and `normalize` returns `0` on every record. -/
theorem c4_normalize_degenerate (df : Dataset) (h : vmax df = vmin df) :
    denom df = 1 ∧ ∀ r ∈ df, normalize df r.value = 0 := by
  have hd : denom df = 1 := by
    have hno : ¬ vmax df - vmin df > 0 := by
      rw [h]
      simp
    unfold denom
    rw [if_neg hno]
  refine ⟨hd, ?_⟩
  intro r hr
  have h1 := vmin_le_of_mem hr
  have h2 := le_vmax_of_mem hr
  have hv : r.value = vmin df := by
    rw [h] at h2
    exact le_antisymm h2 h1
  rw [normalize, hv]
  simp

/-- Witness for C4 on a concrete all-equal dataset. -/
theorem c4_normalize_degenerate_witness :
    vmax dataset5 = vmin dataset5 ∧ denom dataset5 = 1 ∧
      normalize dataset5 (Record.mk 1 2 5).value = 0 := by
  have h : vmax dataset5 = vmin dataset5 := by
    norm_num [dataset5, vmin, vmax, foldMin, foldMax]
  have main := c4_normalize_degenerate dataset5 h
  exact ⟨h, main.1, main.2 ⟨1, 2, 5⟩ (by simp [dataset5])⟩

/-- C5: whenever the requested sample size exceeds the dataset size, the
sampler fails with `OutOfRangeError` and produces no partial result. -/
theorem c5_sample_out_of_range (df : Dataset) (k s : Nat) (hk : df.length < k) :
    sample df k s = Except.error SamplerError.outOfRange := by
  unfold sample
  rw [if_neg]
  omega

/-- Witness for C5: requesting `k = 4` on the three-record dataset fails. -/
theorem c5_sample_out_of_range_witness :
    sample dataset3 4 0 = Except.error SamplerError.outOfRange :=
  c5_sample_out_of_range dataset3 4 0 (by norm_num [dataset3])

/-- C2: for `k ≤ |dataset|`, sampling succeeds with exactly `k` rows, every
returned row is a row of the dataset, the drawn row positions are pairwise
distinct (no record selected twice), and a repeated call with identical
arguments returns the identical subset. -/
theorem c2_sampler_contract (df : Dataset) (k s : Nat) (hk : k ≤ df.length) :
    sample df k s = Except.ok (sampleRows df k s) ∧
      (sampleRows df k s).length = k ∧
      (∀ r ∈ sampleRows df k s, r ∈ df) ∧
      ((sampleIdx df.length s).take k).Nodup ∧
      sample df k s = sample df k s := by
  refine ⟨?_, ?_, ?_, ?_, rfl⟩
  · unfold sample
    rw [if_pos hk]
  · unfold sampleRows
    rw [List.length_map, List.length_take, sampleIdx_length]
    exact Nat.min_eq_left hk
  · intro r hr
    unfold sampleRows at hr
    rcases List.mem_map.mp hr with ⟨i, _, hri⟩
    rw [← hri]
    exact List.get_mem df i.1 i.2
  · exact (List.take_sublist k _).nodup (sampleIdx_nodup df.length s)

/-- Witness for C2: a concrete draw of 2 of the 3 scenario records. -/
theorem c2_sampler_contract_witness :
    2 ≤ dataset3.length ∧
      sample dataset3 2 42 = Except.ok (sampleRows dataset3 2 42) ∧
      (sampleRows dataset3 2 42).length = 2 ∧
      Record.mk 10 20 1 ∈ dataset3 ∧
      ((sampleIdx dataset3.length 42).take 2).Nodup := by
  have hk : 2 ≤ dataset3.length := by norm_num [dataset3]
  have main := c2_sampler_contract dataset3 2 42 hk
  have hmem : Record.mk 10 20 1 ∈ sampleRows dataset3 2 42 := by
    norm_num [sampleRows, sampleIdx, dataset3, fisherYates, lcgNext, List.finRange]
  exact ⟨hk, main.1, main.2.1, main.2.2.1 _ hmem, main.2.2.2.1⟩

/-- C1: the value range is taken over the entire dataset, so a record found
in two different samples (any sizes, any seeds) is emitted with the same
normalised heat weight and the same marker primitive in both. -/
theorem c1_range_over_full_dataset (df : Dataset) (k k' s s' : Nat)
    (out out' : Dataset) (r : Record)
    (h : sample df k s = Except.ok out) (h' : sample df k' s' = Except.ok out')
    (hr : r ∈ out) (hr' : r ∈ out') :
    (r.latitude, r.longitude, normalize df r.value) ∈ heat_data df out ∧
      (r.latitude, r.longitude, normalize df r.value) ∈ heat_data df out' ∧
      markerPrim df r ∈ markerLayer df out ∧
      markerPrim df r ∈ markerLayer df out' := by
  refine ⟨?_, ?_, ?_, ?_⟩
  · exact List.mem_map_of_mem _ hr
  · exact List.mem_map_of_mem _ hr'
  · exact List.mem_map_of_mem _ hr
  · exact List.mem_map_of_mem _ hr'

/-- Witness for C1: the record `(10,20,1.0)` appears both in the 2-row sample
with seed 42 and in the 3-row sample with seed 0, with the same weight. -/
theorem c1_range_over_full_dataset_witness :
    ((Record.mk 10 20 1).latitude, (Record.mk 10 20 1).longitude,
        normalize dataset3 (Record.mk 10 20 1).value) ∈
      heat_data dataset3 (sampleRows dataset3 2 42) ∧
    ((Record.mk 10 20 1).latitude, (Record.mk 10 20 1).longitude,
        normalize dataset3 (Record.mk 10 20 1).value) ∈
      heat_data dataset3 (sampleRows dataset3 3 0) ∧
    markerPrim dataset3 (Record.mk 10 20 1) ∈
      markerLayer dataset3 (sampleRows dataset3 2 42) ∧
    markerPrim dataset3 (Record.mk 10 20 1) ∈
      markerLayer dataset3 (sampleRows dataset3 3 0) := by
  have h : sample dataset3 2 42 = Except.ok (sampleRows dataset3 2 42) := by
    unfold sample
    rw [if_pos (by norm_num [dataset3])]
  have h' : sample dataset3 3 0 = Except.ok (sampleRows dataset3 3 0) := by
    unfold sample
    rw [if_pos (by norm_num [dataset3])]
  have hr : Record.mk 10 20 1 ∈ sampleRows dataset3 2 42 := by
    norm_num [sampleRows, sampleIdx, dataset3, fisherYates, lcgNext, List.finRange]
  have hr' : Record.mk 10 20 1 ∈ sampleRows dataset3 3 0 := by
    norm_num [sampleRows, sampleIdx, dataset3, fisherYates, lcgNext, List.finRange]
  exact c1_range_over_full_dataset dataset3 2 3 42 0 _ _ _ h h' hr hr'

/-- C6: the heatmap renderer fails with `InvalidParameterError` whenever
`radius`, `blur` or `max_zoom` is non-positive, and otherwise passes all
three through to the layer unchanged, with no further validation. -/
theorem c6_heatmap_parameter_validation (d : List (ℚ × ℚ × ℚ))
    (radius blur max_z : Int) :
    ((radius ≤ 0 ∨ blur ≤ 0 ∨ max_z ≤ 0) →
        heatMapRender d radius blur max_z =
          Except.error RenderError.invalidParameter) ∧
      (0 < radius → 0 < blur → 0 < max_z →
        heatMapRender d radius blur max_z =
          Except.ok ⟨d, radius, blur, max_z, 1 / 5, 1⟩) := by
  constructor
  · intro hneg
    have hno : ¬ (0 < radius ∧ 0 < blur ∧ 0 < max_z) := by omega
    unfold heatMapRender
    rw [if_neg hno]
  · intro h1 h2 h3
    unfold heatMapRender
    rw [if_pos ⟨h1, h2, h3⟩]

/-- Witness for C6: `radius = 0` is rejected; the scenario-B parameters
`(12, 18, 13)` pass through unchanged. -/
theorem c6_heatmap_parameter_validation_witness :
    heatMapRender [] 0 18 13 = Except.error RenderError.invalidParameter ∧
      heatMapRender [] 12 18 13 = Except.ok ⟨[], 12, 18, 13, 1 / 5, 1⟩ :=
  ⟨(c6_heatmap_parameter_validation [] 0 18 13).1 (Or.inl le_rfl),
   (c6_heatmap_parameter_validation [] 12 18 13).2 (by norm_num) (by norm_num)
     (by norm_num)⟩

theorem sampleRows_perm (df : Dataset) (s : Nat) :
    List.Perm (sampleRows df df.length s) df := by
  unfold sampleRows
  rw [List.take_of_length_le (le_of_eq (sampleIdx_length df.length s))]
  have h := (sampleIdx_perm df.length s).map df.get
  rw [List.finRange_map_get] at h
  exact h

/-- C7: in heatmap mode the renderer emits exactly one `(lat, lon, weight)`
triple per sampled record with `weight = normalize(value)`; on the scenario-B
dataset with `k = 3` this yields, for every seed, 3 weighted points whose
weights are `{0, 1/2, 1}`. -/
theorem c7_heatmap_one_triple_per_record :
    (∀ df df_show : Dataset,
        heat_data df df_show =
          df_show.map (fun r => (r.latitude, r.longitude, normalize df r.value)) ∧
          (heat_data df df_show).length = df_show.length) ∧
      ∀ s : Nat, ∃ out, sample dataset3 3 s = Except.ok out ∧
        (heat_data dataset3 out).length = 3 ∧
        Multiset.ofList ((heat_data dataset3 out).map (fun t => t.2.2)) =
          Multiset.ofList [0, 1 / 2, 1] := by
  constructor
  · intro df df_show
    exact ⟨rfl, List.length_map _ _⟩
  · intro s
    have h3 : dataset3.length = 3 := rfl
    have hperm : List.Perm (sampleRows dataset3 3 s) dataset3 := by
      have := sampleRows_perm dataset3 s
      rw [h3] at this
      exact this
    refine ⟨sampleRows dataset3 3 s, ?_, ?_, ?_⟩
    · unfold sample
      rw [if_pos (by rw [h3])]
    · simp only [heat_data, List.length_map]
      rw [hperm.length_eq, h3]
    · have hmapped :
          (heat_data dataset3 (sampleRows dataset3 3 s)).map (fun t => t.2.2) =
            (sampleRows dataset3 3 s).map
              (fun r => (r.value - vmin dataset3) / denom dataset3) := by
        unfold heat_data
        rw [List.map_map]
        rfl
      rw [hmapped]
      have hweights : List.Perm
          ((sampleRows dataset3 3 s).map
            (fun r => (r.value - vmin dataset3) / denom dataset3))
          (dataset3.map (fun r => (r.value - vmin dataset3) / denom dataset3)) :=
        hperm.map _
      have hfin : dataset3.map (fun r => (r.value - vmin dataset3) / denom dataset3) =
          [0, 1 / 2, 1] := by
        norm_num [dataset3, vmin, vmax, denom, foldMin, foldMax]
      rw [hfin] at hweights
      exact Quot.sound hweights

theorem runApp_location (df : Dataset) (k s : Nat) (mode : Mode)
    (radius blur max_z : Int) (a : MapArtifact)
    (h : runApp df k s mode radius blur max_z = Except.ok a) :
    a.location = (center_lat df, center_lon df) := by
  unfold runApp at h
  split at h
  · exact Except.noConfusion h
  · split at h
    · rw [← Except.ok.inj h]
    · split at h
      · exact Except.noConfusion h
      · rw [← Except.ok.inj h]

/-- C8: every successfully composed map is centred at the arithmetic mean of
the latitudes and longitudes of the *entire* dataset; in particular two runs
with different sample sizes, seeds or modes share the same centre. -/
theorem c8_center_is_full_dataset_mean (df : Dataset) (k k' s s' : Nat)
    (mode mode' : Mode) (radius blur max_z radius' blur' max_z' : Int)
    (a a' : MapArtifact)
    (h : runApp df k s mode radius blur max_z = Except.ok a)
    (h' : runApp df k' s' mode' radius' blur' max_z' = Except.ok a') :
    a.location = ((df.map (·.latitude)).sum / df.length,
        (df.map (·.longitude)).sum / df.length) ∧
      a.location = a'.location := by
  have h1 := runApp_location df k s mode radius blur max_z a h
  have h2 := runApp_location df k' s' mode' radius' blur' max_z' a' h'
  exact ⟨h1, by rw [h1, h2]⟩

/-- Witness for C8: a marker run with `(k, seed) = (2, 42)` and a heatmap run
with `(k, seed) = (3, 7)` produce the same centre, the dataset mean. -/
theorem c8_center_is_full_dataset_mean_witness :
    (MapArtifact.mk (center_lat dataset3, center_lon dataset3) 6
        (Layer.markers (markerLayer dataset3 (sampleRows dataset3 2 42)))).location =
      ((dataset3.map (·.latitude)).sum / dataset3.length,
        (dataset3.map (·.longitude)).sum / dataset3.length) ∧
      (MapArtifact.mk (center_lat dataset3, center_lon dataset3) 6
        (Layer.markers (markerLayer dataset3 (sampleRows dataset3 2 42)))).location =
      (MapArtifact.mk (center_lat dataset3, center_lon dataset3) 6
        (Layer.heat ⟨heat_data dataset3 (sampleRows dataset3 3 7),
          12, 18, 13, 1 / 5, 1⟩)).location := by
  have h : runApp dataset3 2 42 Mode.circleMarker 1 1 1 =
      Except.ok (MapArtifact.mk (center_lat dataset3, center_lon dataset3) 6
        (Layer.markers (markerLayer dataset3 (sampleRows dataset3 2 42)))) := rfl
  have h' : runApp dataset3 3 7 Mode.heatMap 12 18 13 =
      Except.ok (MapArtifact.mk (center_lat dataset3, center_lon dataset3) 6
        (Layer.heat ⟨heat_data dataset3 (sampleRows dataset3 3 7),
          12, 18, 13, 1 / 5, 1⟩)) := rfl
  exact c8_center_is_full_dataset_mean dataset3 2 3 42 7 Mode.circleMarker
    Mode.heatMap 1 1 1 12 18 13 _ _ h h'

/-- Counterexample to C9 as stated: `a = 1/2 < b = 1/2 + 1/1024`, both inside
`[0,1]`, receive the *same* colour (the colormap quantises to 256 table
entries), and that shared colour is neither of the two endpoint colours, so
the scale is not saturated at an endpoint there. -/
theorem c9_strict_distinctness_counterexample :
    (0 : ℚ) ≤ 1 / 2 ∧ (1 / 2 : ℚ) < 1 / 2 + 1 / 1024 ∧
      (1 / 2 + 1 / 1024 : ℚ) ≤ 1 ∧
      viridisIdx (1 / 2) = viridisIdx (1 / 2 + 1 / 1024) ∧
      viridisIdx (1 / 2) ≠ viridisIdx 0 ∧
      viridisIdx (1 / 2) ≠ viridisIdx 1 := by
  refine ⟨by norm_num, by norm_num, by norm_num, ?_, ?_, ?_⟩
  · norm_num [viridisIdx]
    try decide
  · norm_num [viridisIdx]
    try decide
  · norm_num [viridisIdx]
    try decide

/-- C9 (amended): the colour mapping clamps inputs outside `[0,1]` to the
endpoint colours and is monotone *non-decreasing*; distinct inputs falling in
the same one of the 256 quantisation buckets may share a colour. -/
theorem c9_color_clamp_and_monotone (x a b : ℚ) (hab : a ≤ b) :
    (x < 0 → viridisIdx x = viridisIdx 0) ∧
      (1 < x → viridisIdx x = viridisIdx 1) ∧
      viridisIdx a ≤ viridisIdx b := by
  refine ⟨?_, ?_, ?_⟩
  · intro hx
    rw [viridisIdx, if_pos hx]
    norm_num [viridisIdx]
  · intro hx
    rw [viridisIdx, if_neg (by linarith), if_pos (by linarith)]
    norm_num [viridisIdx]
  · unfold viridisIdx
    by_cases ha0 : a < 0
    · rw [if_pos ha0]
      exact Nat.zero_le _
    · have hb0 : ¬ b < 0 := fun hb => ha0 (lt_of_le_of_lt hab hb)
      rw [if_neg ha0, if_neg hb0]
      by_cases hb1 : 1 ≤ b
      · rw [if_pos hb1]
        by_cases ha1 : 1 ≤ a
        · rw [if_pos ha1]
        · rw [if_neg ha1]
          push_neg at ha1
          have hlt : a * 256 < (256 : ℚ) := by linarith
          have hfloor : ⌊a * 256⌋ < (256 : ℤ) := Int.floor_lt.mpr (by exact_mod_cast hlt)
          omega
      · have ha1 : ¬ 1 ≤ a := fun h => hb1 (le_trans h hab)
        rw [if_neg hb1, if_neg ha1]
        have hmul : a * 256 ≤ b * 256 := by linarith
        have hfloor : ⌊a * 256⌋ ≤ ⌊b * 256⌋ := Int.floor_le_floor hmul
        omega

/-- Witness for C9 (amended): `-1` clamps to the colour of `0`, `2` clamps to
the colour of `1`, and `1/4 ≤ 3/4` gives non-decreasing colour indices. -/
theorem c9_color_clamp_and_monotone_witness :
    viridisIdx (-1) = viridisIdx 0 ∧ viridisIdx 2 = viridisIdx 1 ∧
      viridisIdx (1 / 4) ≤ viridisIdx (3 / 4) := by
  have m1 := c9_color_clamp_and_monotone (-1) (1 / 4) (3 / 4) (by norm_num)
  have m2 := c9_color_clamp_and_monotone 2 0 0 le_rfl
  exact ⟨m1.1 (by norm_num), m2.2.1 (by norm_num), m1.2.2⟩

/-- C10: the sample-size slider only offers multiples of 1000 starting at
1000 and bounded by the dataset size, so every selectable `k` satisfies
`1000 ≤ k ≤ |dataset|` (lower bound 1000, not 1) and the sampler's
out-of-range failure branch is unreachable from the control surface. -/
theorem c10_slider_makes_overflow_unreachable (df : Dataset) (n k s : Nat)
    (hn : df.length = n) (hsel : selectableSampleSize n k) :
    1000 ≤ k ∧ k ≤ df.length ∧
      sample df k s = Except.ok (sampleRows df k s) := by
  obtain ⟨⟨i, hi⟩, hk⟩ := hsel
  have h1 : 1000 ≤ k := by omega
  have h2 : k ≤ df.length := by omega
  refine ⟨h1, h2, ?_⟩
  unfold sample
  rw [if_pos h2]

/-- Witness for C10: on a 1000-row dataset, the slider value `k = 1000`
(`i = 0`) is selectable and sampling succeeds. -/
theorem c10_slider_makes_overflow_unreachable_witness :
    1000 ≤ 1000 ∧
      1000 ≤ (List.replicate 1000 (Record.mk 0 0 0) : Dataset).length ∧
      sample (List.replicate 1000 (Record.mk 0 0 0)) 1000 0 =
        Except.ok (sampleRows (List.replicate 1000 (Record.mk 0 0 0)) 1000 0) := by
  have hlen : (List.replicate 1000 (Record.mk 0 0 0) : Dataset).length = 1000 := by
    rw [List.length_replicate]
  have main := c10_slider_makes_overflow_unreachable
    (List.replicate 1000 (Record.mk 0 0 0)) 1000 1000 0 hlen
    ⟨⟨0, by norm_num⟩, le_rfl⟩
  exact ⟨main.1, le_of_eq hlen.symm, main.2.2⟩

end CalMap
